import Mathlib

/-!
Shallow embedding of the RPC + bulk-transfer core of the bcm2835 audio,
codec and ISP drivers (src/bcm2835-audio/bcm2835-vchiq.c,
src/bcm2835-codec/bcm2835-v4l2-codec.c, src/bcm2835-isp/bcm2835-v4l2-isp.c).

The VCHI/VCHIQ-MMAL transport layer is not part of this repository; its
observable behaviour (enqueue status codes, completion signals, buffers
returned between waits) is modelled as explicit environment inputs.
Return codes follow the kernel convention of negated errno values.
-/

/-- Kernel error return -EIO as an integer. -/
def eioErr : Int := -5

/-- Kernel error return -ETIMEDOUT as an integer. -/
def etimedoutErr : Int := -110

/-- Kernel error return -EPERM as an integer. -/
def epermErr : Int := -1

/-- Kernel error return -ENOMEM as an integer. -/
def enomemErr : Int := -12

/-- Correlation cookie 1, ('B' << 24 | 'C' << 16 | 'M' << 8 | 'A') from
bcm2835-vchiq.c. -/
def BCM2835_AUDIO_WRITE_COOKIE1 : Nat := 66 * 2 ^ 24 + 67 * 2 ^ 16 + 77 * 2 ^ 8 + 65

/-- Correlation cookie 2, ('D' << 24 | 'A' << 16 | 'T' << 8 | 'A') from
bcm2835-vchiq.c. -/
def BCM2835_AUDIO_WRITE_COOKIE2 : Nat := 68 * 2 ^ 24 + 65 * 2 ^ 16 + 84 * 2 ^ 8 + 65

/-- Environment observed by one call of bcm2835_audio_send_msg_locked:
the status returned by vchi_queue_kernel_message, whether the completion
was signalled within the 10 s deadline, and the remote result code written
into instance->result by the dispatch callback before signalling. -/
structure SendEnv where
  queueStatus : Int
  completionWithin10s : Bool
  remoteResult : Int
deriving DecidableEq

/-- Outcome of bcm2835_audio_send_msg_locked: the returned error code and
whether the call blocked on the completion. -/
structure SendOutcome where
  ret : Int
  blocked : Bool
deriving DecidableEq

/-- Embedding of bcm2835_audio_send_msg_locked (bcm2835-vchiq.c:66-97).
If wait, the result slot is armed and a fresh completion initialised; the
message is enqueued; a non-zero enqueue status yields -EIO at once.  If
wait, the caller then blocks up to 10 s: no signal yields -ETIMEDOUT, a
non-zero remote result yields -EIO, otherwise 0.  Without wait the
function returns 0 directly after a successful enqueue. -/
def bcm2835_audio_send_msg_locked (env : SendEnv) (wait : Bool) : SendOutcome :=
  if env.queueStatus ≠ 0 then ⟨eioErr, false⟩
  else if wait then
    if env.completionWithin10s = false then ⟨etimedoutErr, true⟩
    else if env.remoteResult ≠ 0 then ⟨eioErr, true⟩
    else ⟨0, true⟩
  else ⟨0, false⟩

/-- Tagged-union audio message as seen by the dispatch callback
(vc_audio_msg): a RESULT reply, a COMPLETE notice carrying the two
cookies and a byte count, or any other message type. -/
inductive VcAudioMsg where
  | result (success : Int)
  | complete (cookie1 cookie2 count : Nat)
  | other (t : Int)
deriving DecidableEq

/-- The dispatch-visible state of a bcm2835_audio_instance: the pending
result slot and how many times msg_avail_comp has been completed. -/
structure AudioInstanceState where
  result : Int
  completionsSignaled : Nat
deriving DecidableEq

/-- Externally visible effect of one run of audio_vchi_callback. -/
inductive AudioCbEffect where
  | fifoAdvance (count : Nat)
  | logInvalidCookie
  | logUnexpected
deriving DecidableEq

/-- Embedding of audio_vchi_callback (bcm2835-vchiq.c:123-150).  Callbacks
whose reason is not MSG_AVAILABLE return at once.  A RESULT message writes
the result slot and signals the completion.  A COMPLETE message is checked
against the two fixed cookies: on mismatch it is logged and dropped with
no state change; on match bcm2835_playback_fifo is invoked with the
message's count.  Any other type is logged as unexpected. -/
def audio_vchi_callback (st : AudioInstanceState) (msgAvailable : Bool)
    (m : VcAudioMsg) : AudioInstanceState × Option AudioCbEffect :=
  if msgAvailable = false then (st, none)
  else
    match m with
    | .result s =>
        ({ st with result := s, completionsSignaled := st.completionsSignaled + 1 }, none)
    | .complete c1 c2 cnt =>
        if c1 ≠ BCM2835_AUDIO_WRITE_COOKIE1 ∨ c2 ≠ BCM2835_AUDIO_WRITE_COOKIE2 then
          (st, some .logInvalidCookie)
        else
          (st, some (.fifoAdvance cnt))
    | .other _ => (st, some .logUnexpected)

/-- The WRITE control message built by bcm2835_audio_write. -/
structure VcAudioWriteMsg where
  count : Nat
  max_packet : Nat
  cookie1 : Nat
  cookie2 : Nat
deriving DecidableEq

/-- Environment observed by one call of bcm2835_audio_write: the enqueue
status of the WRITE control message (sent with wait=false), the status of
vchi_bulk_queue_transmit, and the status of the i-th chunk enqueue on the
chunked path. -/
structure WriteEnv where
  controlStatus : Int
  bulkStatus : Int
  chunkStatus : Nat → Int

/-- Fuel-bounded embedding of the chunking while-loop of
bcm2835_audio_write (bcm2835-vchiq.c:386-393): while count > 0, send
min(max_packet, count) bytes and advance.  Returns the emitted chunk
payloads and the final value of the local status variable, which each
iteration overwrites with that chunk's enqueue status.  The fuel equals
the byte count at entry, which bounds the iteration count whenever
maxPacket > 0; the maxPacket = 0 guard is unreachable from
bcm2835_audio_write, which takes the bulk path in that case (the C loop
would not terminate there). -/
def chunkSendAux (env : Nat → Int) (maxPacket : Nat) :
    Nat → Nat → List Nat → Int → List (List Nat) × Int
  | 0, _, _, status => ([], status)
  | fuel + 1, idx, buf, status =>
    if buf = [] ∨ maxPacket = 0 then ([], status)
    else
      let bytes := min maxPacket buf.length
      let r := chunkSendAux env maxPacket fuel (idx + 1) (buf.drop bytes) (env idx)
      (buf.take bytes :: r.1, r.2)

/-- The chunking loop of bcm2835_audio_write, entered with the full
buffer; the fuel is instantiated with the buffer length. -/
def chunkSend (env : Nat → Int) (maxPacket idx : Nat) (buf : List Nat)
    (status : Int) : List (List Nat) × Int :=
  chunkSendAux env maxPacket buf.length idx buf status

/-- Observable trace of one call of bcm2835_audio_write: return value,
whether the channel lock was taken, the WRITE control message delivered to
the transport (none when its enqueue failed), the bulk payload handed to
vchi_bulk_queue_transmit, and the chunk payloads enqueued. -/
structure WriteTrace where
  ret : Int
  locked : Bool
  controlMsg : Option VcAudioWriteMsg
  bulkPayload : Option (List Nat)
  chunkPayloads : List (List Nat)
deriving DecidableEq

/-- Embedding of bcm2835_audio_write (bcm2835-vchiq.c:356-405).  A zero
size returns 0 before taking the lock.  Otherwise the WRITE control
message (byte count, instance max_packet, the two cookies) is sent under
the lock with wait=false; on failure the function unlocks and returns
that error.  With max_packet = 0 the whole buffer goes through the bulk
primitive, else through the chunking loop; a non-zero final status maps
to -EIO, otherwise the call returns 0. -/
def bcm2835_audio_write (env : WriteEnv) (maxPacket : Nat) (buf : List Nat) :
    WriteTrace :=
  if buf.length = 0 then ⟨0, false, none, none, []⟩
  else if env.controlStatus ≠ 0 then ⟨eioErr, true, none, none, []⟩
  else if maxPacket = 0 then
    ⟨if env.bulkStatus ≠ 0 then eioErr else 0, true,
      some ⟨buf.length, maxPacket, BCM2835_AUDIO_WRITE_COOKIE1, BCM2835_AUDIO_WRITE_COOKIE2⟩,
      some buf, []⟩
  else
    let r := chunkSend env.chunkStatus maxPacket 0 buf 0
    ⟨if r.2 ≠ 0 then eioErr else 0, true,
      some ⟨buf.length, maxPacket, BCM2835_AUDIO_WRITE_COOKIE1, BCM2835_AUDIO_WRITE_COOKIE2⟩,
      none, r.1⟩

/-- The per-channel state bcm2835_audio_open leaves behind on success:
the negotiated peer version and the chosen max inline packet size
(0 selects the zero-copy bulk path). -/
structure AudioInstance where
  peerVersion : Int
  maxPacket : Nat
deriving DecidableEq

/-- Environment observed by one call of bcm2835_audio_open: whether
kzalloc succeeds, the vchi_service_open status, the enqueue status of the
OPEN message (sent with wait=false), the peer version reported by
vchi_get_peer_version, and the force_bulk module parameter. -/
structure OpenEnv where
  allocOk : Bool
  serviceOpenStatus : Int
  openMsgStatus : Int
  peerVersion : Int
  forceBulk : Bool
deriving DecidableEq

/-- Result of bcm2835_audio_open: the return value and the value of
alsa_stream->instance when the function returns. -/
structure OpenResult where
  ret : Int
  instanceAttached : Option AudioInstance
deriving DecidableEq

/-- Embedding of bcm2835_audio_open (bcm2835-vchiq.c:240-281) together
with vc_vchi_audio_init (152-186).  Allocation failure returns -ENOMEM
with the stream's instance field untouched.  After allocation the
instance is attached; a service-open failure (vc_vchi_audio_init returns
-EPERM) or a failed OPEN send unwinds through free_instance, which resets
alsa_stream->instance to NULL before returning the error.  On success the
peer version is read and max_packet is 0 (bulk) when the version is below
2 or force_bulk is set, else 4000 (chunked inline). -/
def bcm2835_audio_open (env : OpenEnv) (prev : Option AudioInstance) : OpenResult :=
  if env.allocOk = false then ⟨enomemErr, prev⟩
  else if env.serviceOpenStatus ≠ 0 then ⟨epermErr, none⟩
  else if env.openMsgStatus ≠ 0 then ⟨eioErr, none⟩
  else
    ⟨0, some ⟨env.peerVersion,
      if env.peerVersion < 2 ∨ env.forceBulk = true then 0 else 4000⟩⟩

/-- C1: with wait=true the synchronous send returns 0 exactly when the
enqueue succeeds, the completion arrives within the 10 s deadline and the
remote result code is zero; it returns -ETIMEDOUT when the enqueue
succeeds but nothing is signalled in time; it returns -EIO when the
enqueue fails (with either wait value) and when the remote result is
non-zero; with wait=false a successful enqueue returns 0 without
blocking. -/
theorem audio_send_msg_locked_result_codes (env : SendEnv) :
    ((bcm2835_audio_send_msg_locked env true).ret = 0 ↔
      env.queueStatus = 0 ∧ env.completionWithin10s = true ∧ env.remoteResult = 0)
    ∧ (env.queueStatus = 0 → env.completionWithin10s = false →
      (bcm2835_audio_send_msg_locked env true).ret = etimedoutErr)
    ∧ (env.queueStatus ≠ 0 →
      (bcm2835_audio_send_msg_locked env true).ret = eioErr ∧
      (bcm2835_audio_send_msg_locked env false).ret = eioErr)
    ∧ (env.queueStatus = 0 → env.completionWithin10s = true → env.remoteResult ≠ 0 →
      (bcm2835_audio_send_msg_locked env true).ret = eioErr)
    ∧ (env.queueStatus = 0 →
      bcm2835_audio_send_msg_locked env false = ⟨0, false⟩) := by
  by_cases hq : env.queueStatus = 0 <;>
    by_cases hc : env.completionWithin10s = true <;>
      by_cases hr : env.remoteResult = 0 <;>
        simp [bcm2835_audio_send_msg_locked, hq, hc, hr, eioErr, etimedoutErr]

/-- Witness for C1: a concrete timed-out call returns -ETIMEDOUT. -/
theorem audio_send_msg_locked_result_codes_witness :
    (bcm2835_audio_send_msg_locked ⟨0, false, 0⟩ true).ret = etimedoutErr :=
  (audio_send_msg_locked_result_codes ⟨0, false, 0⟩).2.1 rfl rfl

/-- C3: a COMPLETE message whose cookies both match the fixed constants
makes the dispatch callback invoke the fifo-advance callback with the
message's count and leave the instance state unchanged; if either cookie
differs, the message is only logged: no fifo advance, no state change,
and the callback still returns normally (it is a total function). -/
theorem audio_callback_complete_cookie_check (st : AudioInstanceState)
    (c1 c2 cnt : Nat) :
    (c1 = BCM2835_AUDIO_WRITE_COOKIE1 ∧ c2 = BCM2835_AUDIO_WRITE_COOKIE2 →
      audio_vchi_callback st true (.complete c1 c2 cnt)
        = (st, some (.fifoAdvance cnt)))
    ∧ (c1 ≠ BCM2835_AUDIO_WRITE_COOKIE1 ∨ c2 ≠ BCM2835_AUDIO_WRITE_COOKIE2 →
      audio_vchi_callback st true (.complete c1 c2 cnt)
        = (st, some .logInvalidCookie)) := by
  by_cases h1 : c1 = BCM2835_AUDIO_WRITE_COOKIE1 <;>
    by_cases h2 : c2 = BCM2835_AUDIO_WRITE_COOKIE2 <;>
      simp [audio_vchi_callback, h1, h2]

/-- Witness for C3: a COMPLETE with both cookies zero (mismatching) is
dropped with only a log, leaving the state untouched. -/
theorem audio_callback_complete_cookie_check_witness :
    audio_vchi_callback ⟨0, 0⟩ true (.complete 0 0 512)
      = (⟨0, 0⟩, some .logInvalidCookie) :=
  (audio_callback_complete_cookie_check ⟨0, 0⟩ 0 0 512).2 (Or.inl (by decide))

/-- C9: a zero-byte write returns 0 at once: the lock is never taken, no
control message is sent, and no payload is transferred. -/
theorem audio_write_zero_size_noop (env : WriteEnv) (maxPacket : Nat) :
    bcm2835_audio_write env maxPacket [] = ⟨0, false, none, none, []⟩ := rfl

/-- Helper: the chunking loop splits its buffer into ceil(len/maxPacket)
consecutive pieces of size at most maxPacket whose concatenation is the
original buffer, provided maxPacket > 0 and the fuel covers the buffer
length. -/
theorem chunkSendAux_spec (env : Nat → Int) (maxPacket : Nat)
    (hm : 0 < maxPacket) :
    ∀ fuel idx (buf : List Nat) (status : Int), buf.length ≤ fuel →
      (chunkSendAux env maxPacket fuel idx buf status).1.flatten = buf
      ∧ (chunkSendAux env maxPacket fuel idx buf status).1.length
          = (buf.length + maxPacket - 1) / maxPacket
      ∧ ∀ c ∈ (chunkSendAux env maxPacket fuel idx buf status).1,
          c.length ≤ maxPacket := by
  intro fuel
  induction fuel with
  | zero =>
    intro idx buf status h
    have hb : buf = [] := List.eq_nil_of_length_eq_zero (Nat.le_zero.mp h)
    subst hb
    refine ⟨rfl, ?_, by intro c hc; cases hc⟩
    simp [chunkSendAux, Nat.div_eq_of_lt (show maxPacket - 1 < maxPacket by omega)]
  | succ n ih =>
    intro idx buf status h
    by_cases hb : buf = []
    · subst hb
      refine ⟨rfl, ?_, by intro c hc; simp [chunkSendAux] at hc⟩
      simp [chunkSendAux, Nat.div_eq_of_lt (show maxPacket - 1 < maxPacket by omega)]
    · have hcond : ¬(buf = [] ∨ maxPacket = 0) := by
        push_neg
        exact ⟨hb, by omega⟩
      have hlen : 0 < buf.length := List.length_pos.mpr hb
      have hbytes : 0 < min maxPacket buf.length := by omega
      have hdroplen : (buf.drop (min maxPacket buf.length)).length ≤ n := by
        simp only [List.length_drop]
        omega
      obtain ⟨ihj, ihl, ihs⟩ :=
        ih (idx + 1) (buf.drop (min maxPacket buf.length)) (env idx) hdroplen
      have hred : chunkSendAux env maxPacket (n + 1) idx buf status
          = (buf.take (min maxPacket buf.length)
              :: (chunkSendAux env maxPacket n (idx + 1)
                    (buf.drop (min maxPacket buf.length)) (env idx)).1,
             (chunkSendAux env maxPacket n (idx + 1)
                    (buf.drop (min maxPacket buf.length)) (env idx)).2) := by
        simp only [chunkSendAux, if_neg hcond]
      rw [hred]
      refine ⟨?_, ?_, ?_⟩
      · simp only [List.flatten_cons]
        rw [ihj, List.take_append_drop]
      · simp only [List.length_cons, ihl, List.length_drop]
        have e2 : buf.length + maxPacket - 1 = (buf.length - 1) + maxPacket := by omega
        rw [e2, Nat.add_div_right _ hm]
        by_cases hcase : buf.length ≤ maxPacket
        · have e1 : min maxPacket buf.length = buf.length := by omega
          rw [e1]
          have : buf.length - buf.length = 0 := by omega
          rw [this]
          have : (0 + maxPacket - 1) / maxPacket = 0 :=
            Nat.div_eq_of_lt (by omega)
          rw [this]
          have : (buf.length - 1) / maxPacket = 0 :=
            Nat.div_eq_of_lt (by omega)
          omega
        · have e1 : min maxPacket buf.length = maxPacket := by omega
          rw [e1]
          have e3 : buf.length - maxPacket + maxPacket - 1
              = (buf.length - maxPacket - 1) + maxPacket := by omega
          rw [e3, Nat.add_div_right _ hm]
          have e4 : buf.length - maxPacket - 1 + maxPacket = buf.length - 1 := by
            omega
          rw [← e4]
          rw [Nat.add_div_right _ hm]
      · intro c hc
        rcases List.mem_cons.mp hc with hc | hc
        · subst hc
          simp only [List.length_take]
          omega
        · exact ihs c hc

/-- C5: for a buffer of size S > 0 on a channel with negotiated chunk
size M, 0 < M < S, the chunked path of bcm2835_audio_write (entered once
the control message was enqueued) emits exactly ceil(S/M) inline
messages, each of payload size at most M, whose payloads concatenate back
to the original buffer in order. -/
theorem audio_write_chunking (env : WriteEnv) (maxPacket : Nat)
    (buf : List Nat) (hm : 0 < maxPacket) (hs : maxPacket < buf.length)
    (hc : env.controlStatus = 0) :
    (bcm2835_audio_write env maxPacket buf).chunkPayloads.length
      = (buf.length + maxPacket - 1) / maxPacket
    ∧ (∀ c ∈ (bcm2835_audio_write env maxPacket buf).chunkPayloads,
        c.length ≤ maxPacket)
    ∧ (bcm2835_audio_write env maxPacket buf).chunkPayloads.flatten = buf := by
  have hlen : ¬buf.length = 0 := by omega
  have hm0 : ¬maxPacket = 0 := by omega
  have hred : (bcm2835_audio_write env maxPacket buf).chunkPayloads
      = (chunkSend env.chunkStatus maxPacket 0 buf 0).1 := by
    simp [bcm2835_audio_write, hlen, hc, hm0]
  obtain ⟨hj, hl, hsz⟩ :=
    chunkSendAux_spec env.chunkStatus maxPacket hm buf.length 0 buf 0 le_rfl
  rw [hred]
  exact ⟨hl, hsz, hj⟩

/-- Witness for C5: a 3-byte buffer with chunk size 2 yields two chunks,
[1, 2] and [3], concatenating back to the buffer. -/
theorem audio_write_chunking_witness :
    (bcm2835_audio_write ⟨0, 0, fun _ => 0⟩ 2 [1, 2, 3]).chunkPayloads.length = 2
    ∧ (∀ c ∈ (bcm2835_audio_write ⟨0, 0, fun _ => 0⟩ 2 [1, 2, 3]).chunkPayloads,
        c.length ≤ 2)
    ∧ (bcm2835_audio_write ⟨0, 0, fun _ => 0⟩ 2 [1, 2, 3]).chunkPayloads.flatten
        = [1, 2, 3] := by
  have h := audio_write_chunking ⟨0, 0, fun _ => 0⟩ 2 [1, 2, 3]
    (by decide) (by decide) rfl
  simpa using h

/-- Concrete environment in which the first chunk enqueue fails and the
second succeeds. -/
def c4Env : WriteEnv := ⟨0, 0, fun i => if i = 0 then -1 else 0⟩

/-- C4: evaluation at the failing input.  With size 2 and max_packet 1,
the first chunk's enqueue fails (status -1) yet bcm2835_audio_write
returns 0, because the loop overwrites the status variable on every
iteration and only the last chunk's status is tested; both chunks are
still emitted (no rollback). -/
theorem audio_write_middle_chunk_failure_undetected :
    (bcm2835_audio_write c4Env 1 [7, 8]).ret = 0
    ∧ c4Env.chunkStatus 0 = -1
    ∧ (bcm2835_audio_write c4Env 1 [7, 8]).chunkPayloads = [[7], [8]] := by
  refine ⟨rfl, rfl, rfl⟩

/-- C10: every failure of bcm2835_audio_open after the instance
allocation succeeded (service-open failure or failed OPEN send) returns a
negative error code and leaves alsa_stream->instance reset to NULL. -/
theorem audio_open_failure_detaches_instance (env : OpenEnv)
    (prev : Option AudioInstance) (ha : env.allocOk = true)
    (hf : env.serviceOpenStatus ≠ 0 ∨ env.openMsgStatus ≠ 0) :
    (bcm2835_audio_open env prev).ret < 0
    ∧ (bcm2835_audio_open env prev).instanceAttached = none := by
  rcases hf with hf | hf
  · simp [bcm2835_audio_open, ha, hf, epermErr]
  · by_cases hso : env.serviceOpenStatus = 0
    · simp [bcm2835_audio_open, ha, hso, hf, eioErr]
    · simp [bcm2835_audio_open, ha, hso, epermErr]

/-- Witness for C10: a concrete service-open failure yields a negative
return with the instance detached. -/
theorem audio_open_failure_detaches_instance_witness :
    (bcm2835_audio_open ⟨true, 1, 0, 3, false⟩ none).ret < 0
    ∧ (bcm2835_audio_open ⟨true, 1, 0, 3, false⟩ none).instanceAttached = none :=
  audio_open_failure_detaches_instance ⟨true, 1, 0, 3, false⟩ none rfl
    (Or.inl (by decide))

/-- C2 counterexample: the claim, read over the open model, would force a
positive max inline payload size whenever the peer version is below 2 or
force_bulk is set.  A successful open with peer version 1 refutes it: the
code sets max_packet to 0 (the bulk path) in exactly that case. -/
theorem audio_open_policy_counterexample :
    ¬(∀ (env : OpenEnv) (prev : Option AudioInstance),
        (bcm2835_audio_open env prev).ret = 0 →
        ∀ inst, (bcm2835_audio_open env prev).instanceAttached = some inst →
          ((env.peerVersion < 2 ∨ env.forceBulk = true) → 0 < inst.maxPacket)
          ∧ (2 ≤ env.peerVersion ∧ env.forceBulk = false → inst.maxPacket = 0)) := by
  intro h
  have hc := (h ⟨true, 0, 0, 1, false⟩ none (by decide) ⟨1, 0⟩ (by decide)).1
    (Or.inl (by decide))
  exact absurd hc (by decide)

/-- C2 amended: on a successful open, a peer version below 2 or a set
force_bulk selects the zero-copy bulk path, recorded as max_packet = 0;
otherwise the chunked inline path is selected with the positive
negotiated payload size 4000. -/
theorem audio_open_transfer_policy (env : OpenEnv)
    (prev : Option AudioInstance)
    (h : (bcm2835_audio_open env prev).ret = 0) :
    ∃ inst, (bcm2835_audio_open env prev).instanceAttached = some inst
      ∧ inst.peerVersion = env.peerVersion
      ∧ ((env.peerVersion < 2 ∨ env.forceBulk = true) → inst.maxPacket = 0)
      ∧ (2 ≤ env.peerVersion ∧ env.forceBulk = false →
          inst.maxPacket = 4000 ∧ 0 < inst.maxPacket) := by
  by_cases ha : env.allocOk = false
  · exfalso
    simp [bcm2835_audio_open, ha, enomemErr] at h
  · by_cases hso : env.serviceOpenStatus = 0
    · by_cases hom : env.openMsgStatus = 0
      · refine ⟨⟨env.peerVersion,
          if env.peerVersion < 2 ∨ env.forceBulk = true then 0 else 4000⟩, ?_, rfl, ?_, ?_⟩
        · simp [bcm2835_audio_open, ha, hso, hom]
        · intro hbulk
          simp [if_pos hbulk]
        · intro hchunk
          have hcond : ¬(env.peerVersion < 2 ∨ env.forceBulk = true) := by
            push_neg
            exact ⟨by omega, by simp [hchunk.2]⟩
          simp [if_neg hcond]
      · exfalso
        simp [bcm2835_audio_open, ha, hso, hom, eioErr] at h
    · exfalso
      simp [bcm2835_audio_open, ha, hso, epermErr] at h

/-- Witness for C2 amended: a successful open with peer version 1 attaches
an instance on the bulk path (max_packet = 0). -/
theorem audio_open_transfer_policy_witness :
    ∃ inst, (bcm2835_audio_open ⟨true, 0, 0, 1, false⟩ none).instanceAttached
        = some inst
      ∧ inst.peerVersion = (1 : Int)
      ∧ ((1 : Int) < 2 ∨ False → inst.maxPacket = 0)
      ∧ ((2 : Int) ≤ 1 ∧ True → inst.maxPacket = 4000 ∧ 0 < inst.maxPacket) := by
  obtain ⟨inst, h1, h2, h3, h4⟩ :=
    audio_open_transfer_policy ⟨true, 0, 0, 1, false⟩ none (by decide)
  exact ⟨inst, h1, h2, fun _ => h3 (Or.inl (by decide)), fun hx => absurd hx.1 (by decide)⟩

/-- MMAL buffer-header EOS flag (1 << 0), from the MMAL headers used by
the codec and ISP drivers; the headers themselves are outside src/. -/
def MMAL_BUFFER_HEADER_FLAG_EOS : Nat := 1

/-- MMAL buffer-header keyframe flag (1 << 3). -/
def MMAL_BUFFER_HEADER_FLAG_KEYFRAME : Nat := 8

/-- MMAL format-changed event code, the fourcc 'E','F','C','H' packed
little-endian; only its being non-zero and distinct from other codes
matters to the dispatch code. -/
def MMAL_EVENT_FORMAT_CHANGED : Nat := 69 + 70 * 2 ^ 8 + 67 * 2 ^ 16 + 72 * 2 ^ 24

/-- MMAL elementary-stream type tag for video, from enum mmal_es_type;
only (in)equality with the event payload's type field matters. -/
def MMAL_ES_TYPE_VIDEO : Nat := 3

/-- The slice of struct vchiq_mmal_port the dispatch callbacks read: the
enabled flag and the buffers_with_vpu in-flight counter (maintained by
the vchiq-mmal service layer, outside src/). -/
structure MmalPort where
  enabled : Bool
  buffersWithVpu : Nat
deriving DecidableEq

/-- Final state passed to vb2_buffer_done for a completed buffer. -/
inductive Vb2State where
  | done
  | error
deriving DecidableEq

/-- Observable outcome of one run of the ISP dispatch callback. -/
structure IspCbResult where
  loggedUnexpectedCmd : Bool
  bufferDone : Option Vb2State
  payloadSet : Option Nat
  signaled : Bool
deriving DecidableEq

/-- Embedding of mmal_buffer_cb (bcm2835-v4l2-isp.c:281-320).  A non-zero
cmd is logged but the function falls through.  A non-zero status returns
the buffer with ERROR and does not signal.  Otherwise the buffer is
completed DONE with the payload length set, and frame_cmplt is signalled
exactly when the port is not enabled. -/
def mmal_buffer_cb (port : MmalPort) (status : Int) (cmd length : Nat) :
    IspCbResult :=
  let logged := cmd != 0
  if status ≠ 0 then ⟨logged, some .error, none, false⟩
  else ⟨logged, some .done, some length, !port.enabled⟩

/-- Observable outcome of one run of the codec input-port callback. -/
structure IpCbResult where
  eosBufferCleared : Bool
  loggedUnexpectedCmd : Bool
  bufferDone : Option Vb2State
  numIpBuffersIncremented : Bool
  signaled : Bool
deriving DecidableEq

/-- Embedding of ip_buffer_cb (bcm2835-v4l2-codec.c:640-689).  The EOS
marker buffer only clears its in-use flag.  A non-zero status returns the
buffer with ERROR and does not signal.  Otherwise a stray cmd is logged
(the code falls through), the buffer is completed DONE, num_ip_buffers is
incremented, and frame_cmplt is signalled exactly when the port is not
enabled. -/
def ip_buffer_cb (port : MmalPort) (status : Int) (isEosBuffer : Bool)
    (cmd : Nat) : IpCbResult :=
  if isEosBuffer then ⟨true, false, none, false, false⟩
  else if status ≠ 0 then ⟨false, false, some .error, false, false⟩
  else ⟨false, cmd != 0, some .done, true, !port.enabled⟩

/-- The codec pixel-format fields read by get_bytesperline. -/
structure CodecFmt where
  depth : Nat
  bytesperline_align : Nat
deriving DecidableEq

/-- The destination-queue geometry fields of bcm2835_codec_q_data that
handle_fmt_changed reads and writes. -/
structure QData where
  bytesperline : Nat
  height : Nat
  crop_width : Nat
  crop_height : Nat
  sizeimage : Nat
  fmt : CodecFmt
deriving DecidableEq

/-- Kernel ALIGN(x, a) (round x up to a multiple of a) for the
power-of-two alignments used by the formats table; written with division
so it is total on Nat. -/
def alignUp (x a : Nat) : Nat := (x + a - 1) / a * a

/-- Embedding of get_bytesperline (bcm2835-v4l2-codec.c:596-600). -/
def get_bytesperline (width : Nat) (fmt : CodecFmt) : Nat :=
  alignUp (width * fmt.depth >>> 3) fmt.bytesperline_align

/-- The fields of struct mmal_msg_event_format_changed read by
handle_fmt_changed. -/
structure FormatChangedEvent where
  esType : Nat
  width : Nat
  height : Nat
  cropWidth : Nat
  cropHeight : Nat
  bufferSizeMin : Nat
  colorSpace : Nat
deriving DecidableEq

/-- Embedding of handle_fmt_changed (bcm2835-v4l2-codec.c:732-771),
returning the updated destination q_data, whether the source-change event
was queued, and whether the colourspace fields were rewritten.  A payload
whose elementary-stream type is not video is only logged. -/
def handle_fmt_changed (q : QData) (ev : FormatChangedEvent) :
    QData × Bool × Bool :=
  if ev.esType ≠ MMAL_ES_TYPE_VIDEO then (q, false, false)
  else
    ({ q with crop_width := ev.cropWidth,
              crop_height := ev.cropHeight,
              bytesperline := get_bytesperline ev.width q.fmt,
              height := ev.height,
              sizeimage := ev.bufferSizeMin },
      true, ev.colorSpace != 0)

/-- The fields of the returned mmal_buffer read by op_buffer_cb, with the
format-changed payload it may carry when cmd says so. -/
structure OpBuf where
  cmd : Nat
  length : Nat
  mmal_flags : Nat
  pts : Int
  fmtEvent : FormatChangedEvent
deriving DecidableEq

/-- Observable outcome of one run of the codec output-port callback. -/
structure OpCbResult where
  q_data : QData
  sourceChangeQueued : Bool
  colorspaceUpdated : Bool
  eosEventSent : Bool
  lastFlagSet : Bool
  keyframeFlagSet : Bool
  bufferDone : Option Vb2State
  payloadSet : Option Nat
  timestampNs : Option Int
  signaled : Bool
deriving DecidableEq

/-- Embedding of op_buffer_cb (bcm2835-v4l2-codec.c:773-849).  A non-zero
status returns the buffer with ERROR.  A non-zero cmd dispatches the
format-changed handler (or logs an unexpected event) and completes no
buffer.  The empty-buffer test preserves the C operator precedence of
line 821: (!mmal_flags) & MMAL_BUFFER_HEADER_FLAG_EOS, which is non-zero
exactly when mmal_flags is zero; that path returns the buffer with ERROR
and signals when the port is disabled.  Otherwise EOS and keyframe flags
are propagated, the timestamp is converted from usecs to nsecs, and the
buffer is completed DONE, signalling frame_cmplt exactly when the port is
not enabled. -/
def op_buffer_cb (port : MmalPort) (status : Int) (buf : OpBuf) (q : QData) :
    OpCbResult :=
  if status ≠ 0 then
    ⟨q, false, false, false, false, false, some .error, none, none, false⟩
  else if buf.cmd ≠ 0 then
    if buf.cmd = MMAL_EVENT_FORMAT_CHANGED then
      let r := handle_fmt_changed q buf.fmtEvent
      ⟨r.1, r.2.1, r.2.2, false, false, false, none, none, none, false⟩
    else
      ⟨q, false, false, false, false, false, none, none, none, false⟩
  else if buf.length = 0
      ∧ ((if buf.mmal_flags = 0 then 1 else 0) &&& MMAL_BUFFER_HEADER_FLAG_EOS) ≠ 0 then
    ⟨q, false, false, false, false, false, some .error, none, none, !port.enabled⟩
  else
    let eos := buf.mmal_flags &&& MMAL_BUFFER_HEADER_FLAG_EOS != 0
    let kf := buf.mmal_flags &&& MMAL_BUFFER_HEADER_FLAG_KEYFRAME != 0
    ⟨q, false, false, eos, eos, kf, some .done, some buf.length,
      some (buf.pts * 1000), !port.enabled⟩

/-- One round of the teardown wait loop environment: some k means the
wait was signalled after k in-flight buffers were returned by the remote
side (the vchiq-mmal layer decrements buffers_with_vpu and the dispatch
callback signals frame_cmplt); none means the 1 s wait timed out. -/
def drainLoop : List (Option Nat) → Nat → Nat × Bool
  | _, 0 => (0, false)
  | [], n + 1 => (n + 1, true)
  | none :: _, n + 1 => (n + 1, true)
  | some k :: rest, n + 1 => drainLoop rest (n + 1 - k)

/-- Observable outcome of a stop-streaming teardown. -/
structure StopResult where
  preDisableErrorReturns : Nat
  remaining : Nat
  drainTimedOut : Bool
  postDrainBufferDones : Nat
  postDrainCleanups : Nat
deriving DecidableEq

/-- Embedding of bcm2835_codec_stop_streaming
(bcm2835-v4l2-codec.c:2147-2224).  Buffers still held by the m2m
framework are returned with ERROR before the port is disabled; the wait
loop then spins until buffers_with_vpu reaches zero or a 1 s wait times
out (logging and breaking out).  After the loop the routine only releases
each vb2 buffer's VCSM/mmal resources (bcm2835_codec_mmal_buf_cleanup,
lines 2202-2208); it issues no further buffer completion, so
postDrainBufferDones is 0 by the shape of the source. -/
def bcm2835_codec_stop_streaming (m2mHeld buffersWithVpu : Nat)
    (events : List (Option Nat)) (numBuffers : Nat) : StopResult :=
  let r := drainLoop events buffersWithVpu
  ⟨m2mHeld, r.1, r.2, 0, numBuffers⟩

/-- Embedding of bcm2835_isp_node_stop_streaming
(bcm2835-v4l2-isp.c:588-649): the same wait loop, followed only by
per-buffer resource cleanup (lines 624-629) and the final
vb2_wait_for_all_buffers; again no buffer completion after the drain. -/
def bcm2835_isp_node_stop_streaming (buffersWithVpu : Nat)
    (events : List (Option Nat)) (numBuffers : Nat) : StopResult :=
  let r := drainLoop events buffersWithVpu
  ⟨0, r.1, r.2, 0, numBuffers⟩

/-- Helper: the drain loop only exits with the counter at zero or with
the timeout flag raised. -/
theorem drainLoop_exit (events : List (Option Nat)) :
    ∀ n, (drainLoop events n).1 = 0 ∨ (drainLoop events n).2 = true := by
  induction events with
  | nil =>
    intro n
    cases n with
    | zero => exact Or.inl (by simp [drainLoop])
    | succ m => exact Or.inr (by simp [drainLoop])
  | cons e rest ih =>
    intro n
    cases n with
    | zero => exact Or.inl (by simp [drainLoop])
    | succ m =>
      cases e with
      | none => exact Or.inr (by simp [drainLoop])
      | some k =>
        have hred : drainLoop (some k :: rest) (m + 1) = drainLoop rest (m + 1 - k) := by
          simp [drainLoop]
        rw [hred]
        exact ih (m + 1 - k)

/-- Sample destination-queue geometry used by concrete instantiations. -/
def sampleQData : QData := ⟨0, 0, 0, 0, 0, ⟨8, 32⟩⟩

/-- Sample returned buffer with no command and no flags. -/
def sampleOpBuf : OpBuf := ⟨0, 0, 0, 0, ⟨0, 0, 0, 0, 0, 0, 0⟩⟩

/-- Sample format-changed buffer: a video elementary stream of 640x480
with a 632x478 crop and a minimum buffer size of 100000. -/
def sampleFmtBuf : OpBuf :=
  ⟨MMAL_EVENT_FORMAT_CHANGED, 0, 0, 0, ⟨MMAL_ES_TYPE_VIDEO, 640, 480, 632, 478, 100000, 1⟩⟩

/-- C6 counterexample: the claim requires the teardown, once its bounded
wait has expired, to force-complete the never-returned buffers with an
error state.  With 3 buffers held by the remote side and the first wait
timing out, the codec teardown exits the loop with 3 still outstanding
and issues no buffer completion after the drain: the source only
releases each buffer's mmal/VCSM resources. -/
theorem codec_stop_streaming_counterexample :
    ¬(∀ (m2mHeld bwv : Nat) (events : List (Option Nat)) (nb : Nat),
        ((bcm2835_codec_stop_streaming m2mHeld bwv events nb).remaining = 0
          ∨ (bcm2835_codec_stop_streaming m2mHeld bwv events nb).drainTimedOut = true)
        ∧ (bcm2835_codec_stop_streaming m2mHeld bwv events nb).postDrainBufferDones
            = (bcm2835_codec_stop_streaming m2mHeld bwv events nb).remaining) := by
  intro h
  have hc := (h 0 3 [none] 3).2
  simp [bcm2835_codec_stop_streaming, drainLoop] at hc

/-- C6 amended: both teardown routines wait until the in-flight counter
reaches zero or a bounded wait times out (the loop can exit in no other
way), and after the wait they complete no further buffer: never-returned
buffers are left to the remote side, only their local resources are
released. -/
theorem stop_streaming_drain_behaviour (m2mHeld bwv nb : Nat)
    (events : List (Option Nat)) :
    ((bcm2835_codec_stop_streaming m2mHeld bwv events nb).remaining = 0
      ∨ (bcm2835_codec_stop_streaming m2mHeld bwv events nb).drainTimedOut = true)
    ∧ (bcm2835_codec_stop_streaming m2mHeld bwv events nb).postDrainBufferDones = 0
    ∧ ((bcm2835_isp_node_stop_streaming bwv events nb).remaining = 0
      ∨ (bcm2835_isp_node_stop_streaming bwv events nb).drainTimedOut = true)
    ∧ (bcm2835_isp_node_stop_streaming bwv events nb).postDrainBufferDones = 0 := by
  refine ⟨?_, rfl, ?_, rfl⟩
  · exact drainLoop_exit events bwv
  · exact drainLoop_exit events bwv

/-- C7 counterexample: the claim makes the drain-completion signal
require the in-flight counter to have reached zero.  On a disabled port
with 2 buffers still in flight, a successfully completed buffer makes
each dispatch callback signal the completion anyway: the source only
tests port->enabled and never reads buffers_with_vpu. -/
theorem dispatch_signal_counterexample :
    ¬(∀ (port : MmalPort) (length : Nat) (buf : OpBuf) (q : QData),
        ((mmal_buffer_cb port 0 0 length).signaled = true ↔
          port.buffersWithVpu = 0 ∧ port.enabled = false)
        ∧ ((ip_buffer_cb port 0 false 0).signaled = true ↔
          port.buffersWithVpu = 0 ∧ port.enabled = false)
        ∧ (buf.cmd = 0 → ((op_buffer_cb port 0 buf q).signaled = true ↔
          port.buffersWithVpu = 0 ∧ port.enabled = false))) := by
  intro h
  have hc := ((h ⟨false, 2⟩ 0 sampleOpBuf sampleQData).1.mp (by decide)).1
  exact absurd hc (by decide)

/-- C7 amended: on a successfully completed buffer event (zero status,
no command, in the codec input case not the EOS marker buffer), each of
the three dispatch callbacks signals the drain completion exactly when
the port is not enabled, whatever the in-flight counter holds; on a
transfer-error completion none of them signals. -/
theorem dispatch_signal_iff_port_disabled (port : MmalPort) (status : Int)
    (cmd length : Nat) (buf : OpBuf) (q : QData) (hcmd : buf.cmd = 0) :
    (mmal_buffer_cb port 0 cmd length).signaled = !port.enabled
    ∧ (ip_buffer_cb port 0 false cmd).signaled = !port.enabled
    ∧ (op_buffer_cb port 0 buf q).signaled = !port.enabled
    ∧ (status ≠ 0 →
        (mmal_buffer_cb port status cmd length).signaled = false
        ∧ (ip_buffer_cb port status false cmd).signaled = false
        ∧ (op_buffer_cb port status buf q).signaled = false) := by
  refine ⟨rfl, rfl, ?_, ?_⟩
  · have hne : ¬buf.cmd ≠ 0 := by simp [hcmd]
    simp only [op_buffer_cb]
    rw [if_neg (by simp), if_neg hne]
    split <;> split <;> rfl
  · intro hst
    refine ⟨?_, ?_, ?_⟩
    · simp [mmal_buffer_cb, hst]
    · simp [ip_buffer_cb, hst]
    · simp [op_buffer_cb, hst]

/-- Witness for C7 amended: on an enabled port a completed buffer does
not signal, and an errored transfer never signals. -/
theorem dispatch_signal_iff_port_disabled_witness :
    (mmal_buffer_cb ⟨true, 0⟩ 0 0 0).signaled = !true
    ∧ (ip_buffer_cb ⟨true, 0⟩ 0 false 0).signaled = !true
    ∧ (op_buffer_cb ⟨true, 0⟩ 0 sampleOpBuf sampleQData).signaled = !true
    ∧ ((1 : Int) ≠ 0 →
        (mmal_buffer_cb ⟨true, 0⟩ 1 0 0).signaled = false
        ∧ (ip_buffer_cb ⟨true, 0⟩ 1 false 0).signaled = false
        ∧ (op_buffer_cb ⟨true, 0⟩ 1 sampleOpBuf sampleQData).signaled = false) :=
  dispatch_signal_iff_port_disabled ⟨true, 0⟩ 1 0 0 sampleOpBuf sampleQData rfl

/-- C8: a format-changed event for a video elementary stream arriving on
the output-port dispatch path updates the destination queue's geometry
from the event payload (crop width and height, bytesperline derived from
the payload width, height, sizeimage from the minimum buffer size),
queues the source-change notification, and completes no buffer (nor does
it signal the drain completion). -/
theorem op_format_changed_updates_geometry (port : MmalPort) (buf : OpBuf)
    (q : QData) (hcmd : buf.cmd = MMAL_EVENT_FORMAT_CHANGED)
    (hvid : buf.fmtEvent.esType = MMAL_ES_TYPE_VIDEO) :
    (op_buffer_cb port 0 buf q).q_data
        = { q with crop_width := buf.fmtEvent.cropWidth,
                   crop_height := buf.fmtEvent.cropHeight,
                   bytesperline := get_bytesperline buf.fmtEvent.width q.fmt,
                   height := buf.fmtEvent.height,
                   sizeimage := buf.fmtEvent.bufferSizeMin }
    ∧ (op_buffer_cb port 0 buf q).sourceChangeQueued = true
    ∧ (op_buffer_cb port 0 buf q).bufferDone = none
    ∧ (op_buffer_cb port 0 buf q).signaled = false := by
  have hne : buf.cmd ≠ 0 := by
    rw [hcmd]
    decide
  have hEv : ¬MMAL_EVENT_FORMAT_CHANGED = 0 := by decide
  simp [op_buffer_cb, hne, hcmd, handle_fmt_changed, hvid, hEv]

/-- Witness for C8: the sample format-changed event rewrites the sample
geometry to the payload values and completes no buffer. -/
theorem op_format_changed_updates_geometry_witness :
    (op_buffer_cb ⟨true, 0⟩ 0 sampleFmtBuf sampleQData).q_data
        = { sampleQData with
              crop_width := sampleFmtBuf.fmtEvent.cropWidth,
              crop_height := sampleFmtBuf.fmtEvent.cropHeight,
              bytesperline := get_bytesperline sampleFmtBuf.fmtEvent.width sampleQData.fmt,
              height := sampleFmtBuf.fmtEvent.height,
              sizeimage := sampleFmtBuf.fmtEvent.bufferSizeMin }
    ∧ (op_buffer_cb ⟨true, 0⟩ 0 sampleFmtBuf sampleQData).sourceChangeQueued = true
    ∧ (op_buffer_cb ⟨true, 0⟩ 0 sampleFmtBuf sampleQData).bufferDone = none
    ∧ (op_buffer_cb ⟨true, 0⟩ 0 sampleFmtBuf sampleQData).signaled = false :=
  op_format_changed_updates_geometry ⟨true, 0⟩ sampleFmtBuf sampleQData rfl rfl
